import Mathlib

/-!
Shallow embedding of the PSP22/ERC20 swapper bridge contract (src/lib.rs).

The contract has three layers:
* an extension-client error mapping (`Psp22Error::from_status_code`),
* an asset-pair registry plus two swap entry points (`create_asset_pair`,
  `swap_for_asset`, `swap_asset`),
* a facade relaying the eleven PSP22 extension operations.

Account ids, asset ids and balances are modelled as `Nat`.  An aborting
call (Rust `panic!` / `expect` / `assert!`) is modelled by the `Outcome.abort`
constructor carrying the panic message; the host ledger reverts all state on
abort, which `runState` makes explicit by returning the pre-state.
-/

/-- Pointwise update of a one-argument map. -/
def upd {α : Type} (f : Nat → α) (k : Nat) (v : α) : Nat → α :=
  fun x => if x = k then v else f x

/-- Pointwise update of a two-argument map. -/
def upd2 {α : Type} (f : Nat → Nat → α) (k1 k2 : Nat) (v : α) : Nat → Nat → α :=
  fun x y => if x = k1 then (if y = k2 then v else f x y) else f x y

/-- Result of a contract call: normal return, or a fatal abort
(`panic!`/`expect`/`assert!`) carrying the panic message. -/
inductive Outcome (α : Type) where
  | ok : α → Outcome α
  | abort : String → Outcome α
deriving Repr, DecidableEq

/-- The single domain error of the system (src/lib.rs lines 74-76):
`TotalSupplyFailed` is the only variant, the "aggregate query failure". -/
inductive Psp22Error where
  | TotalSupplyFailed
deriving Repr, DecidableEq

/-- `Psp22Error::from_status_code` (src/lib.rs lines 86-94): status 0 is
success, status 1 is the single domain error, anything else panics. -/
def from_status_code (status_code : Nat) : Outcome (Except Psp22Error Unit) :=
  match status_code with
  | 0 => .ok (.ok ())
  | 1 => .ok (.error .TotalSupplyFailed)
  | _ => .abort "encountered unknown status code"

/-- Modelled from the spec: state of one contract-standard (ERC20) token
contract — balances and `(owner, spender)` allowances.  The token contracts
themselves are external collaborators (the `erc20` crate is outside src/),
"assumed to correctly implement the token interface" (spec §1). -/
structure Erc20State where
  balances : Nat → Nat
  allowances : Nat → Nat → Nat

/-- Errors of the contract-standard token interface. -/
inductive Erc20Error where
  | insufficientBalance
  | insufficientAllowance
deriving Repr, DecidableEq

/-- Modelled from the spec: the contract-standard internal transfer —
fails when `src`'s balance is below `value`, otherwise moves `value`
from `src` to `dst`. -/
def transfer_from_to (s : Erc20State) (src dst value : Nat) :
    Except Erc20Error Erc20State :=
  let src_balance := s.balances src
  if src_balance < value then .error .insufficientBalance
  else
    let b1 := upd s.balances src (src_balance - value)
    .ok { s with balances := upd b1 dst (b1 dst + value) }

/-- Modelled from the spec: the contract-standard `transfer_from` as seen by
a caller `caller` — "requires the caller to have pre-approved the bridge for
at least `amount`" (spec §4.4 step 2); on success the allowance is consumed
and balances move via `transfer_from_to`. -/
def erc20_transfer_from (s : Erc20State) (caller src dst value : Nat) :
    Except Erc20Error Erc20State :=
  let allowed := s.allowances src caller
  if allowed < value then .error .insufficientAllowance
  else
    match transfer_from_to s src dst value with
    | .error e => .error e
    | .ok s' => .ok { s' with allowances := upd2 s'.allowances src caller (allowed - value) }

/-- Extension-standard ledger: balance per `(asset_id, account)`. -/
def ExtLedger : Type := Nat → Nat → Nat

/-- Modelled from the spec: the host extension `transfer` operation —
"source of these extension-standard funds is the bridge's own
extension-standard balance" (spec §4.4 step 3); an insufficient source
balance surfaces as the status-1 domain error. -/
def ext_transfer (L : ExtLedger) (src : Nat) (asset_id dst value : Nat) :
    Except Psp22Error ExtLedger :=
  if L asset_id src < value then .error .TotalSupplyFailed
  else
    let b1 := upd (L asset_id) src (L asset_id src - value)
    .ok (upd L asset_id (upd b1 dst (b1 dst + value)))

/-- Storage of the bridge contract (src/lib.rs lines 123-127):
the registry `asset_pairs : Mapping<AssetId, Erc20Ref>` and the single
default reference `asset_pair`.  References are modelled by account ids. -/
structure BridgeStorage where
  asset_pairs : Nat → Option Nat
  asset_pair : Nat

/-- Constructor `Psp22Extension::new` (src/lib.rs lines 131-137): empty
registry, default reference set to the given address. -/
def Psp22Extension.new (erc20_address : Nat) : BridgeStorage :=
  { asset_pairs := fun _ => none, asset_pair := erc20_address }

/-- `create_asset_pair` (src/lib.rs lines 139-144): inserts (or overwrites)
the registry entry for `asset_id`.  The `caller` argument is the transaction
caller available to every message; the body never reads it. -/
def create_asset_pair (_caller : Nat) (b : BridgeStorage) (asset_id erc20_address : Nat) :
    BridgeStorage :=
  { b with asset_pairs := upd b.asset_pairs asset_id (some erc20_address) }

/-- Whole-world state: bridge storage, the state of every contract-standard
token contract (indexed by its address), and the extension-standard ledger. -/
structure World where
  bridge : BridgeStorage
  erc20s : Nat → Erc20State
  ext : ExtLedger

/-- The common two-leg swap algorithm (spec §4.4), parameterised by the
resolved contract-standard reference `r`: leg 1 pulls `amount` from `caller`
into the bridge's custody via `erc20_transfer_from` (perceived caller of the
cross-contract call is the bridge itself), leg 2 pushes `amount` of
`asset_id` from the bridge to `caller` on the extension ledger; failure of
either leg aborts. -/
def swap_core (w : World) (bridgeAddr caller r asset_id amount : Nat) : Outcome World :=
  match erc20_transfer_from (w.erc20s r) bridgeAddr caller bridgeAddr amount with
  | .error _ => .abort "erc20_result"
  | .ok s' =>
    let w' : World := { w with erc20s := upd w.erc20s r s' }
    match ext_transfer w'.ext bridgeAddr asset_id caller amount with
    | .error _ => .abort "ext_result"
    | .ok L' => .ok { w' with ext := L' }

/-- `swap_for_asset` (src/lib.rs lines 146-165): resolve the ERC20 reference
through the registry (`expect("Asset pair not found!")`), pull `amount` from
the caller via that contract's `transfer_from` (asserting success), then
transfer `amount` of `asset_id` to the caller via the extension (asserting
success). -/
def swap_for_asset (w : World) (bridgeAddr caller asset_id amount : Nat) : Outcome World :=
  match w.bridge.asset_pairs asset_id with
  | none => .abort "Asset pair not found!"
  | some r =>
    match erc20_transfer_from (w.erc20s r) bridgeAddr caller bridgeAddr amount with
    | .error _ => .abort "erc20_result"
    | .ok s' =>
      let w' : World := { w with erc20s := upd w.erc20s r s' }
      match ext_transfer w'.ext bridgeAddr asset_id caller amount with
      | .error _ => .abort "ext_result"
      | .ok L' => .ok { w' with ext := L' }

/-- The bridge's own `Erc20Trait::transfer_from` implementation
(src/lib.rs lines 336-338): delegates to the default `asset_pair`
reference; the ERC20 contract perceives the bridge as the caller. -/
def bridgeImpl_transfer_from (w : World) (bridgeAddr src dst value : Nat) :
    Except Erc20Error Erc20State :=
  erc20_transfer_from (w.erc20s w.bridge.asset_pair) bridgeAddr src dst value

/-- `swap_asset` (src/lib.rs lines 167-185): like `swap_for_asset` but
leg 1 goes through `Erc20Trait::transfer_from(self, ...)`, i.e. the
default `asset_pair` reference; the registry is never consulted. -/
def swap_asset (w : World) (bridgeAddr caller asset_id amount : Nat) : Outcome World :=
  match bridgeImpl_transfer_from w bridgeAddr caller bridgeAddr amount with
  | .error _ => .abort "erc20_result"
  | .ok s' =>
    let w' : World := { w with erc20s := upd w.erc20s w.bridge.asset_pair s' }
    match ext_transfer w'.ext bridgeAddr asset_id caller amount with
    | .error _ => .abort "ext_result"
    | .ok L' => .ok { w' with ext := L' }

/-- Observable state after a call: the new state on normal return; the
pre-state on abort (the host ledger reverts the transaction). -/
def runState (w : World) (o : Outcome World) : World :=
  match o with
  | .ok w' => w'
  | .abort _ => w

/-- The extension operations declared by the chain-extension trait
(src/lib.rs lines 8-70), each with its fixed numeric selector from the
`#[ink(extension = ...)]` attribute. -/
def extOperations : List (String × Nat) :=
  [("token_name", 0x3d26),
   ("token_symbol", 0x3420),
   ("token_decimals", 0x7271),
   ("total_supply", 0x162d),
   ("balance_of", 0x6568),
   ("allowance", 0x4d47),
   ("transfer", 0xdb20),
   ("transfer_from", 0x54b3),
   ("approve", 0xb20f),
   ("increase_allowance", 0x96d6),
   ("decrease_allowance", 0xfecb)]

/-- Abstract Extension Client: one typed operation per chain-extension
method (src/lib.rs lines 8-70), with results `Result<_, Psp22Error>`.
Token names and symbols are byte vectors, modelled as `List Nat`. -/
structure ExtClient where
  token_name : Nat → Except Psp22Error (List Nat)
  token_symbol : Nat → Except Psp22Error (List Nat)
  token_decimals : Nat → Except Psp22Error Nat
  total_supply : Nat → Except Psp22Error Nat
  balance_of : Nat → Nat → Except Psp22Error Nat
  allowance : Nat → Nat → Nat → Except Psp22Error Nat
  transfer : Nat → Nat → Nat → Except Psp22Error Unit
  transfer_from : Nat → Nat → Nat → Nat → Except Psp22Error Unit
  approve : Nat → Nat → Nat → Except Psp22Error Unit
  increase_allowance : Nat → Nat → Nat → Except Psp22Error Unit
  decrease_allowance : Nat → Nat → Nat → Except Psp22Error Unit

/-- Facade message `token_name` (src/lib.rs lines 190-193): relays to the
extension client; the bridge storage is returned unchanged. -/
def facade_token_name (e : ExtClient) (b : BridgeStorage) (asset_id : Nat) :
    Except Psp22Error (List Nat) × BridgeStorage :=
  (e.token_name asset_id, b)

/-- Facade message `token_symbol` (src/lib.rs lines 196-199). -/
def facade_token_symbol (e : ExtClient) (b : BridgeStorage) (asset_id : Nat) :
    Except Psp22Error (List Nat) × BridgeStorage :=
  (e.token_symbol asset_id, b)

/-- Facade message `token_decimals` (src/lib.rs lines 202-205). -/
def facade_token_decimals (e : ExtClient) (b : BridgeStorage) (asset_id : Nat) :
    Except Psp22Error Nat × BridgeStorage :=
  (e.token_decimals asset_id, b)

/-- Facade message `total_supply` (src/lib.rs lines 210-213). -/
def facade_total_supply (e : ExtClient) (b : BridgeStorage) (asset_id : Nat) :
    Except Psp22Error Nat × BridgeStorage :=
  (e.total_supply asset_id, b)

/-- Facade message `balance_of` (src/lib.rs lines 216-219). -/
def facade_balance_of (e : ExtClient) (b : BridgeStorage) (asset_id owner : Nat) :
    Except Psp22Error Nat × BridgeStorage :=
  (e.balance_of asset_id owner, b)

/-- Facade message `allowance` (src/lib.rs lines 223-231). -/
def facade_allowance (e : ExtClient) (b : BridgeStorage) (asset_id owner spender : Nat) :
    Except Psp22Error Nat × BridgeStorage :=
  (e.allowance asset_id owner spender, b)

/-- Facade message `transfer` (src/lib.rs lines 237-240). -/
def facade_transfer (e : ExtClient) (b : BridgeStorage) (asset_id dst value : Nat) :
    Except Psp22Error Unit × BridgeStorage :=
  (e.transfer asset_id dst value, b)

/-- Facade message `transfer_from` (src/lib.rs lines 246-257). -/
def facade_transfer_from (e : ExtClient) (b : BridgeStorage) (asset_id src dst value : Nat) :
    Except Psp22Error Unit × BridgeStorage :=
  (e.transfer_from asset_id src dst value, b)

/-- Facade message `approve` (src/lib.rs lines 263-266). -/
def facade_approve (e : ExtClient) (b : BridgeStorage) (asset_id spender value : Nat) :
    Except Psp22Error Unit × BridgeStorage :=
  (e.approve asset_id spender value, b)

/-- Facade message `increase_allowance` (src/lib.rs lines 272-282). -/
def facade_increase_allowance (e : ExtClient) (b : BridgeStorage) (asset_id spender value : Nat) :
    Except Psp22Error Unit × BridgeStorage :=
  (e.increase_allowance asset_id spender value, b)

/-- Facade message `decrease_allowance` (src/lib.rs lines 288-298). -/
def facade_decrease_allowance (e : ExtClient) (b : BridgeStorage) (asset_id spender value : Nat) :
    Except Psp22Error Unit × BridgeStorage :=
  (e.decrease_allowance asset_id spender value, b)

/-- Apply a sequence of `create_asset_pair` registrations, each with its
calling account, in order. -/
def applyRegistrations (b : BridgeStorage) : List (Nat × Nat × Nat) → BridgeStorage
  | [] => b
  | (caller, a, r) :: rest => applyRegistrations (create_asset_pair caller b a r) rest

/-- The reference of the last registration for `a` in the sequence, if any
(the sentence of the spec this formalises: "last-registered contract
reference"). -/
def lastRegistered (a : Nat) : List (Nat × Nat × Nat) → Option Nat
  | [] => none
  | (_, a', r) :: rest =>
    match lastRegistered a rest with
    | some r' => some r'
    | none => if a' = a then some r else none

/-- Replace the registry component of a world, leaving everything else. -/
def setPairs (w : World) (m : Nat → Option Nat) : World :=
  { w with bridge := { w.bridge with asset_pairs := m } }

/-- Map a function over a normally-returned outcome. -/
def Outcome.omap {α β : Type} (f : α → β) : Outcome α → Outcome β
  | .ok a => .ok (f a)
  | .abort s => .abort s

/-- Whether a call returned normally (did not abort). -/
def Outcome.isOk {α : Type} : Outcome α → Bool
  | .ok _ => true
  | .abort _ => false

/-- A concrete world for evaluating the theorems: bridge account 2,
one ERC20 token at address 5 (caller 1 holds 100, has approved 150 to
account 2), registry maps asset 7 to address 5, default reference 5,
and the bridge holds 500 of asset 7 on the extension ledger. -/
def sampleWorld : World :=
  { bridge := { asset_pairs := fun a => if a = 7 then some 5 else none,
                asset_pair := 5 },
    erc20s := fun _ =>
      { balances := fun x => if x = 1 then 100 else 0,
        allowances := fun x y => if x = 1 ∧ y = 2 then 150 else 0 },
    ext := fun aid x => if aid = 7 ∧ x = 2 then 500 else 0 }

theorem upd_self {α : Type} (f : Nat → α) (k : Nat) (v : α) : upd f k v k = v := by
  simp [upd]

theorem upd_ne {α : Type} (f : Nat → α) {k x : Nat} (v : α) (h : x ≠ k) :
    upd f k v x = f x := by
  simp [upd, h]

/-- `swap_for_asset` is the common algorithm after a registry lookup. -/
theorem swap_for_asset_core (w : World) (b c aid amt : Nat) :
    swap_for_asset w b c aid amt =
      match w.bridge.asset_pairs aid with
      | none => .abort "Asset pair not found!"
      | some r => swap_core w b c r aid amt := by
  unfold swap_for_asset swap_core
  cases w.bridge.asset_pairs aid <;> rfl

/-- `swap_asset` is the common algorithm at the default reference. -/
theorem swap_asset_core (w : World) (b c aid amt : Nat) :
    swap_asset w b c aid amt = swap_core w b c w.bridge.asset_pair aid amt := rfl

/-- The common algorithm never touches the bridge's own storage. -/
theorem swap_core_bridge (w : World) (b c r aid amt : Nat) :
    (runState w (swap_core w b c r aid amt)).bridge = w.bridge := by
  unfold swap_core
  cases erc20_transfer_from (w.erc20s r) b c b amt with
  | error e => rfl
  | ok s' =>
    dsimp only
    cases ext_transfer w.ext b aid c amt with
    | error e => rfl
    | ok L' => rfl

/-- When the caller has enough allowance and balance on the resolved ERC20
and the bridge has enough extension balance, the common algorithm returns
normally and moves exactly `amt` on both legs. -/
theorem swap_core_ok (w : World) (b c r aid amt : Nat)
    (hcb : c ≠ b)
    (hallow : amt ≤ (w.erc20s r).allowances c b)
    (hbal : amt ≤ (w.erc20s r).balances c)
    (hext : amt ≤ w.ext aid b) :
    (swap_core w b c r aid amt).isOk = true ∧
    ((runState w (swap_core w b c r aid amt)).erc20s r).balances c
      = (w.erc20s r).balances c - amt ∧
    ((runState w (swap_core w b c r aid amt)).erc20s r).balances b
      = (w.erc20s r).balances b + amt ∧
    (runState w (swap_core w b c r aid amt)).ext aid c = w.ext aid c + amt ∧
    (runState w (swap_core w b c r aid amt)).ext aid b = w.ext aid b - amt := by
  have hbc : b ≠ c := Ne.symm hcb
  have h1 : ¬ ((w.erc20s r).allowances c b < amt) := not_lt.mpr hallow
  have h2 : ¬ ((w.erc20s r).balances c < amt) := not_lt.mpr hbal
  have h3 : ¬ (w.ext aid b < amt) := not_lt.mpr hext
  simp only [swap_core, erc20_transfer_from, transfer_from_to, ext_transfer,
    if_neg h1, if_neg h2, if_neg h3, runState, Outcome.isOk]
  refine ⟨trivial, ?_, ?_, ?_, ?_⟩ <;> simp [upd, hcb, hbc]

/-- C2: the Extension Client's status-code mapping sends 0 to success and
1 to the sole defined domain error (`TotalSupplyFailed`, the "aggregate
query failure"); every other status code aborts fatally and is never
interpreted as a defined error variant. -/
theorem status_code_mapping :
    from_status_code 0 = .ok (.ok ()) ∧
    from_status_code 1 = .ok (.error .TotalSupplyFailed) ∧
    (∀ e : Psp22Error, e = .TotalSupplyFailed) ∧
    (∀ n : Nat, n ≠ 0 → n ≠ 1 →
      from_status_code n = .abort "encountered unknown status code") := by
  refine ⟨rfl, rfl, ?_, ?_⟩
  · intro e; cases e; rfl
  · intro n h0 h1
    match n with
    | 0 => exact absurd rfl h0
    | 1 => exact absurd rfl h1
    | (k + 2) => rfl

theorem status_code_mapping_witness :
    (2 : Nat) ≠ 0 ∧ (2 : Nat) ≠ 1 ∧
    from_status_code 2 = .abort "encountered unknown status code" :=
  ⟨by decide, by decide, status_code_mapping.2.2.2 2 (by decide) (by decide)⟩

/-- C3: when no pair is registered for `asset_id`, `swap_for_asset` aborts
with the "Asset pair not found!" message (so before either transfer leg),
and the observable post-state — registry, default reference, all ERC20 and
extension balances — is exactly the pre-state. -/
theorem swap_for_asset_unregistered (w : World) (b c aid amt : Nat)
    (h : w.bridge.asset_pairs aid = none) :
    swap_for_asset w b c aid amt = .abort "Asset pair not found!" ∧
    runState w (swap_for_asset w b c aid amt) = w := by
  unfold swap_for_asset
  rw [h]
  exact ⟨rfl, rfl⟩

theorem swap_for_asset_unregistered_witness :
    sampleWorld.bridge.asset_pairs 8 = none ∧
    swap_for_asset sampleWorld 2 1 8 10 = .abort "Asset pair not found!" :=
  ⟨by decide, (swap_for_asset_unregistered sampleWorld 2 1 8 10 (by decide)).1⟩

/-- C8 counterexample: the chain-extension trait declares eleven
selector-keyed operations, not ten. -/
theorem extOperations_not_ten :
    extOperations.length = 11 ∧ extOperations.length ≠ 10 := by
  exact ⟨rfl, by decide⟩

/-- C8 amended: the Extension Client provides typed access to exactly
eleven host extension operations, each identified by a fixed numeric
selector, and those selectors are pairwise distinct. -/
theorem extOperations_eleven :
    extOperations.length = 11 ∧ (extOperations.map Prod.snd).Nodup := by
  constructor
  · rfl
  · decide

/-- C9: `create_asset_pair` performs no caller authorization — its result
is independent of the calling account, it always succeeds, and it installs
(or overwrites) the registry entry for `asset_id`, leaving every other
entry and the default reference unchanged. -/
theorem create_asset_pair_no_auth :
    ∀ (caller caller' : Nat) (b : BridgeStorage) (a r : Nat),
      create_asset_pair caller b a r = create_asset_pair caller' b a r ∧
      (create_asset_pair caller b a r).asset_pairs a = some r ∧
      (create_asset_pair caller b a r).asset_pair = b.asset_pair ∧
      ∀ x, x ≠ a → (create_asset_pair caller b a r).asset_pairs x = b.asset_pairs x := by
  intro caller caller' b a r
  refine ⟨rfl, ?_, rfl, ?_⟩
  · simp [create_asset_pair, upd]
  · intro x hx
    simp [create_asset_pair, upd, hx]

theorem create_asset_pair_no_auth_witness :
    (4 : Nat) ≠ 3 ∧
    (create_asset_pair 1 (Psp22Extension.new 9) 3 5).asset_pairs 4
      = (Psp22Extension.new 9).asset_pairs 4 :=
  ⟨by decide, (create_asset_pair_no_auth 1 2 (Psp22Extension.new 9) 3 5).2.2.2 4 (by decide)⟩

/-- Induction form of last-write-wins for the registry. -/
theorem applyRegistrations_lookup (regs : List (Nat × Nat × Nat)) :
    ∀ (b : BridgeStorage) (a : Nat),
      (applyRegistrations b regs).asset_pairs a =
        match lastRegistered a regs with
        | some r => some r
        | none => b.asset_pairs a := by
  induction regs with
  | nil => intro b a; rfl
  | cons p rest ih =>
    intro b a
    obtain ⟨c, a', r⟩ := p
    simp only [applyRegistrations, lastRegistered]
    rw [ih]
    cases lastRegistered a rest with
    | some r' => rfl
    | none =>
      simp only [create_asset_pair, upd]
      by_cases hx : a' = a
      · subst hx; simp
      · have hx2 : a ≠ a' := fun h => hx h.symm
        simp [hx, hx2]

/-- C5: after any sequence of `create_asset_pair` registrations, looking up
an asset id returns exactly the last-registered reference for that id (or
the original entry when the sequence never touches it); in particular
re-registration with the same id overwrites the previous entry. -/
theorem registry_last_write_wins :
    (∀ (regs : List (Nat × Nat × Nat)) (b : BridgeStorage) (a : Nat),
      (applyRegistrations b regs).asset_pairs a =
        match lastRegistered a regs with
        | some r => some r
        | none => b.asset_pairs a) ∧
    (∀ (c c' : Nat) (b : BridgeStorage) (a r r' : Nat),
      (create_asset_pair c' (create_asset_pair c b a r) a r').asset_pairs a = some r') := by
  refine ⟨fun regs => applyRegistrations_lookup regs, ?_⟩
  intro c c' b a r r'
  simp [create_asset_pair, upd]

/-- C6: every extension-standard facade operation relays the Extension
Client's result and error unchanged and leaves the bridge storage exactly
as it was — no local validation, caching, or state change. -/
theorem facade_pass_through :
    ∀ (e : ExtClient) (b : BridgeStorage) (a o s d v : Nat),
      facade_token_name e b a = (e.token_name a, b) ∧
      facade_token_symbol e b a = (e.token_symbol a, b) ∧
      facade_token_decimals e b a = (e.token_decimals a, b) ∧
      facade_total_supply e b a = (e.total_supply a, b) ∧
      facade_balance_of e b a o = (e.balance_of a o, b) ∧
      facade_allowance e b a o s = (e.allowance a o s, b) ∧
      facade_transfer e b a d v = (e.transfer a d v, b) ∧
      facade_transfer_from e b a o d v = (e.transfer_from a o d v, b) ∧
      facade_approve e b a s v = (e.approve a s v, b) ∧
      facade_increase_allowance e b a s v = (e.increase_allowance a s v, b) ∧
      facade_decrease_allowance e b a s v = (e.decrease_allowance a s v, b) :=
  fun _ _ _ _ _ _ _ =>
    ⟨rfl, rfl, rfl, rfl, rfl, rfl, rfl, rfl, rfl, rfl, rfl⟩

/-- C10: neither swap entry point ever modifies the bridge's own storage —
the observable post-state (normal return or abort-with-revert) carries the
registry and the default reference unchanged. -/
theorem swaps_preserve_bridge_storage :
    ∀ (w : World) (b c aid amt : Nat),
      (runState w (swap_for_asset w b c aid amt)).bridge = w.bridge ∧
      (runState w (swap_asset w b c aid amt)).bridge = w.bridge := by
  intro w b c aid amt
  constructor
  · rw [swap_for_asset_core]
    cases w.bridge.asset_pairs aid with
    | none => rfl
    | some r => exact swap_core_bridge w b c r aid amt
  · rw [swap_asset_core]
    exact swap_core_bridge w b c w.bridge.asset_pair aid amt

/-- C7: `swap_asset` sources its contract-standard leg from the default
reference configured at construction and never consults the registry
(changing the registry only changes the registry carried in the result),
while `swap_for_asset` sources it from the registry entry for `asset_id`;
both are otherwise the common algorithm `swap_core`. -/
theorem swap_entry_points_sourcing :
    ∀ (w : World) (b c aid amt : Nat) (m : Nat → Option Nat),
      swap_asset w b c aid amt = swap_core w b c w.bridge.asset_pair aid amt ∧
      swap_for_asset w b c aid amt =
        (match w.bridge.asset_pairs aid with
         | none => .abort "Asset pair not found!"
         | some r => swap_core w b c r aid amt) ∧
      swap_asset (setPairs w m) b c aid amt =
        (swap_asset w b c aid amt).omap (fun u => setPairs u m) := by
  intro w b c aid amt m
  refine ⟨swap_asset_core w b c aid amt, swap_for_asset_core w b c aid amt, ?_⟩
  unfold swap_asset bridgeImpl_transfer_from setPairs Outcome.omap
  cases erc20_transfer_from (w.erc20s w.bridge.asset_pair) b c b amt with
  | error e => rfl
  | ok s' =>
    dsimp only
    cases ext_transfer w.ext b aid c amt with
    | error e => rfl
    | ok L' => rfl

/-- Case analysis of the common algorithm: leg-1 failure aborts with the
`erc20_result` assertion, leg-2 failure aborts with the `ext_result`
assertion, and success composes leg 2 after leg 1. -/
theorem swap_core_cases (w : World) (b c r aid amt : Nat) :
    (∀ e, erc20_transfer_from (w.erc20s r) b c b amt = .error e →
        swap_core w b c r aid amt = .abort "erc20_result") ∧
    (∀ s' e, erc20_transfer_from (w.erc20s r) b c b amt = .ok s' →
        ext_transfer w.ext b aid c amt = .error e →
        swap_core w b c r aid amt = .abort "ext_result") ∧
    (∀ s' L', erc20_transfer_from (w.erc20s r) b c b amt = .ok s' →
        ext_transfer w.ext b aid c amt = .ok L' →
        swap_core w b c r aid amt =
          .ok { bridge := w.bridge, erc20s := upd w.erc20s r s', ext := L' }) := by
  refine ⟨?_, ?_, ?_⟩
  · intro e he
    simp only [swap_core, he]
  · intro s' e h1 h2
    simp only [swap_core, h1, h2]
  · intro s' L' h1 h2
    simp only [swap_core, h1, h2]

/-- C4: in both swap entry points the contract-standard `transfer_from`
leg runs first and the extension-standard `transfer` second; a leg-1
failure aborts fatally with the `erc20_result` assertion before the
extension transfer is attempted and leaves every balance unchanged, a
leg-2 failure aborts fatally with the `ext_result` assertion, and success
is exactly leg 2 applied after leg 1. -/
theorem swap_legs_order_and_fatal_aborts :
    ∀ (w : World) (b c aid amt r : Nat),
      (w.bridge.asset_pairs aid = some r →
        ((∀ e, erc20_transfer_from (w.erc20s r) b c b amt = .error e →
            swap_for_asset w b c aid amt = .abort "erc20_result" ∧
            runState w (swap_for_asset w b c aid amt) = w) ∧
         (∀ s' e, erc20_transfer_from (w.erc20s r) b c b amt = .ok s' →
            ext_transfer w.ext b aid c amt = .error e →
            swap_for_asset w b c aid amt = .abort "ext_result") ∧
         (∀ s' L', erc20_transfer_from (w.erc20s r) b c b amt = .ok s' →
            ext_transfer w.ext b aid c amt = .ok L' →
            swap_for_asset w b c aid amt =
              .ok { bridge := w.bridge, erc20s := upd w.erc20s r s', ext := L' }))) ∧
      ((∀ e, erc20_transfer_from (w.erc20s w.bridge.asset_pair) b c b amt = .error e →
          swap_asset w b c aid amt = .abort "erc20_result" ∧
          runState w (swap_asset w b c aid amt) = w) ∧
       (∀ s' e, erc20_transfer_from (w.erc20s w.bridge.asset_pair) b c b amt = .ok s' →
          ext_transfer w.ext b aid c amt = .error e →
          swap_asset w b c aid amt = .abort "ext_result") ∧
       (∀ s' L', erc20_transfer_from (w.erc20s w.bridge.asset_pair) b c b amt = .ok s' →
          ext_transfer w.ext b aid c amt = .ok L' →
          swap_asset w b c aid amt =
            .ok { bridge := w.bridge, erc20s := upd w.erc20s w.bridge.asset_pair s',
                  ext := L' })) := by
  intro w b c aid amt r
  constructor
  · intro hpair
    have hfa : swap_for_asset w b c aid amt = swap_core w b c r aid amt := by
      rw [swap_for_asset_core, hpair]
    obtain ⟨k1, k2, k3⟩ := swap_core_cases w b c r aid amt
    refine ⟨?_, ?_, ?_⟩
    · intro e he
      rw [hfa, k1 e he]
      exact ⟨rfl, rfl⟩
    · intro s' e h1 h2
      rw [hfa]
      exact k2 s' e h1 h2
    · intro s' L' h1 h2
      rw [hfa]
      exact k3 s' L' h1 h2
  · obtain ⟨k1, k2, k3⟩ := swap_core_cases w b c w.bridge.asset_pair aid amt
    refine ⟨?_, ?_, ?_⟩
    · intro e he
      rw [swap_asset_core, k1 e he]
      exact ⟨rfl, rfl⟩
    · intro s' e h1 h2
      rw [swap_asset_core]
      exact k2 s' e h1 h2
    · intro s' L' h1 h2
      rw [swap_asset_core]
      exact k3 s' L' h1 h2

theorem swap_legs_order_and_fatal_aborts_witness :
    sampleWorld.bridge.asset_pairs 7 = some 5 ∧
    erc20_transfer_from (sampleWorld.erc20s 5) 2 1 2 200 = .error .insufficientAllowance ∧
    swap_for_asset sampleWorld 2 1 7 200 = .abort "erc20_result" ∧
    runState sampleWorld (swap_for_asset sampleWorld 2 1 7 200) = sampleWorld :=
  ⟨by decide, rfl,
   ((swap_legs_order_and_fatal_aborts sampleWorld 2 1 7 200 5).1 (by decide)).1
     .insufficientAllowance rfl⟩

/-- C1 counterexample: in `sampleWorld` the caller (account 1) has
pre-approved the bridge (account 2) for 150 ≥ 120 on the registered ERC20
and the bridge holds 500 ≥ 120 of asset 7 on the extension ledger, yet
`swap_for_asset` of 120 never returns — it aborts in leg 1, because the
caller only holds 100 of the token — so no balance moves. -/
theorem swap_balance_deltas_cex :
    sampleWorld.bridge.asset_pairs 7 = some 5 ∧
    120 ≤ (sampleWorld.erc20s 5).allowances 1 2 ∧
    120 ≤ sampleWorld.ext 7 2 ∧
    (swap_for_asset sampleWorld 2 1 7 120).isOk = false ∧
    swap_for_asset sampleWorld 2 1 7 120 = .abort "erc20_result" :=
  ⟨by decide, by decide, by decide, rfl, rfl⟩

/-- C1 amended: for a caller distinct from the bridge that has pre-approved
the bridge for at least `amt` and also holds at least `amt` of the
contract-standard token, while the bridge holds at least `amt` of the asset
on the extension ledger, both swap entry points return normally; afterwards
the caller's contract-standard balance has decreased by `amt`, the bridge's
has increased by `amt`, the caller's extension-standard balance has
increased by `amt` and the bridge's has decreased by `amt`. -/
theorem swap_balance_deltas (w : World) (b c aid amt r : Nat)
    (hcb : c ≠ b)
    (hallow : amt ≤ (w.erc20s r).allowances c b)
    (hbal : amt ≤ (w.erc20s r).balances c)
    (hext : amt ≤ w.ext aid b) :
    (w.bridge.asset_pairs aid = some r →
      ((swap_for_asset w b c aid amt).isOk = true ∧
       ((runState w (swap_for_asset w b c aid amt)).erc20s r).balances c
         = (w.erc20s r).balances c - amt ∧
       ((runState w (swap_for_asset w b c aid amt)).erc20s r).balances b
         = (w.erc20s r).balances b + amt ∧
       (runState w (swap_for_asset w b c aid amt)).ext aid c = w.ext aid c + amt ∧
       (runState w (swap_for_asset w b c aid amt)).ext aid b = w.ext aid b - amt)) ∧
    (r = w.bridge.asset_pair →
      ((swap_asset w b c aid amt).isOk = true ∧
       ((runState w (swap_asset w b c aid amt)).erc20s r).balances c
         = (w.erc20s r).balances c - amt ∧
       ((runState w (swap_asset w b c aid amt)).erc20s r).balances b
         = (w.erc20s r).balances b + amt ∧
       (runState w (swap_asset w b c aid amt)).ext aid c = w.ext aid c + amt ∧
       (runState w (swap_asset w b c aid amt)).ext aid b = w.ext aid b - amt)) := by
  constructor
  · intro hpair
    have hfa : swap_for_asset w b c aid amt = swap_core w b c r aid amt := by
      rw [swap_for_asset_core, hpair]
    rw [hfa]
    exact swap_core_ok w b c r aid amt hcb hallow hbal hext
  · intro hr
    have hfa : swap_asset w b c aid amt = swap_core w b c r aid amt := by
      rw [swap_asset_core, ← hr]
    rw [hfa]
    exact swap_core_ok w b c r aid amt hcb hallow hbal hext

theorem swap_balance_deltas_witness :
    (1 : Nat) ≠ 2 ∧
    30 ≤ (sampleWorld.erc20s 5).allowances 1 2 ∧
    30 ≤ (sampleWorld.erc20s 5).balances 1 ∧
    30 ≤ sampleWorld.ext 7 2 ∧
    sampleWorld.bridge.asset_pairs 7 = some 5 ∧
    ((swap_for_asset sampleWorld 2 1 7 30).isOk = true ∧
     ((runState sampleWorld (swap_for_asset sampleWorld 2 1 7 30)).erc20s 5).balances 1
       = (sampleWorld.erc20s 5).balances 1 - 30 ∧
     ((runState sampleWorld (swap_for_asset sampleWorld 2 1 7 30)).erc20s 5).balances 2
       = (sampleWorld.erc20s 5).balances 2 + 30 ∧
     (runState sampleWorld (swap_for_asset sampleWorld 2 1 7 30)).ext 7 1
       = sampleWorld.ext 7 1 + 30 ∧
     (runState sampleWorld (swap_for_asset sampleWorld 2 1 7 30)).ext 7 2
       = sampleWorld.ext 7 2 - 30) :=
  ⟨by decide, by decide, by decide, by decide, by decide,
   (swap_balance_deltas sampleWorld 2 1 7 30 5 (by decide) (by decide) (by decide)
      (by decide)).1 (by decide)⟩
